import Mathlib

/-!
Verification development for the blood-delivery drone core.

Shallow embedding of the repository:
- `safety_monitor.py` (`SafetyMonitor`): `check_battery_safety`,
  `check_weather_safety`, `check_altitude_safety`, `check_no_fly_zones`,
  `is_mission_safe`.
- `drone_controller.py` (`DroneController`): `get_battery_level` (with the
  voltage-to-percent derivation) and `calculate_speed_from_position`.
- `app.py`: `get_drone_status`, `select_best_mission`, `auto_start_mission`.

Conventions: Python floats and timestamps are modelled by `ℚ`; the geodesic
distance function of the `geopy` library is an abstract parameter
`dist : Point → Point → ℚ` (every property proved here holds for every
distance function); DB rows are records; the DB writes of `auto_start_mission`
and the MAVLink commands it issues are collected into an explicit result
record.
-/

namespace Drone

/-- A (latitude, longitude) pair, as used by `geodesic` in the source. -/
structure Point where
  lat : ℚ
  lon : ℚ
  deriving DecidableEq, Repr

/-! ### Safety limits (safety_monitor.py, `SafetyMonitor.__init__`) -/

def min_battery : ℚ := 20

def max_wind_speed : ℚ := 25

def max_distance : ℚ := 10

def min_altitude : ℚ := 30

def max_altitude : ℚ := 120

/-- A no-fly zone entry: name, center coordinates, radius in km. -/
structure NoFlyZone where
  name : String
  lat : ℚ
  lon : ℚ
  radius : ℚ
  deriving DecidableEq, Repr

def zone_center (z : NoFlyZone) : Point := { lat := z.lat, lon := z.lon }

/-- `SafetyMonitor.check_battery_safety` (safety_monitor.py lines 32-40). -/
def check_battery_safety (battery_level mission_distance : ℚ) : Bool :=
  let required_battery := mission_distance * 2 + min_battery
  if battery_level < required_battery then false else true

/-- `SafetyMonitor.check_weather_safety` (safety_monitor.py lines 42-50). -/
def check_weather_safety (wind_speed visibility : ℚ) : Bool :=
  if max_wind_speed < wind_speed then false
  else if visibility < 5000 then false
  else true

/-- `SafetyMonitor.check_altitude_safety` (safety_monitor.py lines 52-60). -/
def check_altitude_safety (altitude : ℚ) : Bool :=
  if altitude < min_altitude then false
  else if max_altitude < altitude then false
  else true

/-- `SafetyMonitor.check_no_fly_zones` (safety_monitor.py lines 62-89):
iterates the configured zones; rejects as soon as the current location or the
destination is strictly closer to a zone center than the zone radius. -/
def check_no_fly_zones (dist : Point → Point → ℚ) (zones : List NoFlyZone)
    (current_location destination : Point) : Bool :=
  match zones with
  | [] => true
  | z :: rest =>
    if dist current_location (zone_center z) < z.radius then false
    else if dist destination (zone_center z) < z.radius then false
    else check_no_fly_zones dist rest current_location destination

/-- The `mission_params` dict passed to `is_mission_safe`. -/
structure MissionParams where
  battery_level : ℚ
  wind_speed : ℚ
  visibility : ℚ
  start_location : Point
  destination : Point
  planned_altitude : ℚ
  deriving DecidableEq

/-- `SafetyMonitor.is_mission_safe` (safety_monitor.py lines 91-141):
distance gate first, then the conjunction of the four remaining checks. -/
def is_mission_safe (dist : Point → Point → ℚ) (zones : List NoFlyZone)
    (p : MissionParams) : Bool :=
  let distance := dist p.start_location p.destination
  if max_distance < distance then false
  else
    check_battery_safety p.battery_level distance &&
    check_weather_safety p.wind_speed p.visibility &&
    check_altitude_safety p.planned_altitude &&
    check_no_fly_zones dist zones p.start_location p.destination

/-! ### DroneController (drone_controller.py) -/

/-- The voltage-to-percent derivation inside `get_battery_level`
(drone_controller.py lines 55-62); `voltage` is in volts.  Python `int()`
truncation coincides with `Int.floor` because the interpolated value is
nonnegative in the branch where it is taken. -/
def battery_from_voltage (voltage : ℚ) : Int :=
  if (12.6 : ℚ) < voltage then 100
  else if voltage < (10.5 : ℚ) then 0
  else Int.floor ((voltage - 10.5) / ((12.6 : ℚ) - 10.5) * 100)

/-- The battery telemetry visible in one `get_battery_level` call: the
`SYS_STATUS.battery_remaining` field if such a message arrives, and the first
`BATTERY_STATUS` cell voltage (in millivolts) if such a message arrives. -/
structure BatteryTelemetry where
  battery_remaining : Option Int
  voltages_mv : Option ℚ
  deriving DecidableEq

/-- `DroneController.get_battery_level` (drone_controller.py lines 38-73):
returns 0 when not connected; else prefers the direct percentage, then the
voltage derivation, then the optimistic default 100. -/
def get_battery_level (is_connected : Bool) (t : BatteryTelemetry) : Int :=
  if is_connected = false then 0
  else
    match t.battery_remaining with
    | some p => p
    | none =>
      match t.voltages_mv with
      | some mv => battery_from_voltage (mv / 1000)
      | none => 100

/-- The mutable state of `DroneController` used by
`calculate_speed_from_position`. -/
structure ControllerState where
  last_location : Option Point
  last_location_time : Option ℚ
  current_speed : ℚ
  deriving DecidableEq

/-- `DroneController.calculate_speed_from_position` (drone_controller.py
lines 188-223).  `dist_m` is the geodesic distance in meters,
`current_location` is the result of the inner `get_location` call,
`current_time` the wall clock.  Returns the speed together with the updated
controller state. -/
def calculate_speed_from_position (dist_m : Point → Point → ℚ)
    (st : ControllerState) (current_location : Option Point)
    (current_time : ℚ) : ℚ × ControllerState :=
  match current_location, st.last_location, st.last_location_time with
  | some cur, some last, some last_time =>
    let time_diff := current_time - last_time
    if time_diff < 1/10 then (st.current_speed, st)
    else
      let distance := dist_m last cur
      let speed0 := distance / time_diff
      let speed := if (100 : ℚ) < speed0 then 0 else speed0
      (speed,
        { last_location := some cur
          last_location_time := some current_time
          current_speed := speed })
  | cur, _, _ =>
    (0,
      { st with
          last_location := cur
          last_location_time := some current_time })

/-! ### Data model (app.py DB models) -/

structure Hospital where
  id : Nat
  name : String
  latitude : ℚ
  longitude : ℚ
  deriving DecidableEq, Repr

def hospital_point (h : Hospital) : Point :=
  { lat := h.latitude, lon := h.longitude }

structure BloodInventory where
  hospital_id : Nat
  blood_type : String
  units : Int
  deriving DecidableEq, Repr

structure BloodRequest where
  id : Nat
  hospital_id : Nat
  blood_type : String
  units : Int
  urgency : String
  status : String
  created_at : ℚ
  deriving DecidableEq, Repr

/-- The global `drone_status` dict of app.py. -/
structure DroneStatus where
  is_charging : Bool
  battery_level : Int
  is_available : Bool
  current_location : Option Point
  deriving DecidableEq

/-- `get_drone_status` (app.py lines 89-112): when disconnected only the
availability flag is cleared (the rest of the global is left as it was);
otherwise battery, charging inference (`battery > 90`), location and
availability (`battery > 20 and not charging`) are recomputed. -/
def get_drone_status (prev : DroneStatus) (is_connected : Bool)
    (battery : Int) (location : Option Point) : DroneStatus :=
  if is_connected = false then { prev with is_available := false }
  else
    let charging := decide (90 < battery)
    { is_charging := charging
      battery_level := battery
      is_available := decide (20 < battery) && !charging
      current_location := location }

/-! ### MissionScheduler (app.py `select_best_mission`, lines 114-237) -/

/-- Urgency weight (app.py lines 180-186): if/elif/else chain. -/
def urgency_score (u : String) : ℚ :=
  if u = "critical" then 0
  else if u = "urgent" then 10
  else 20

/-- Wait-time term (app.py lines 188-190): hours since creation times 5. -/
def time_score (now created_at : ℚ) : ℚ :=
  ((now - created_at) / 3600) * 5

/-- `total_score` of a candidate (app.py lines 179-195). -/
def priority_score_of (now : ℚ) (r : BloodRequest) (total_distance : ℚ) : ℚ :=
  urgency_score r.urgency + time_score now r.created_at + total_distance * 2

/-- One entry of `mission_candidates` (app.py lines 197-208). -/
structure MissionCandidate where
  request : BloodRequest
  source_hospital : Hospital
  destination_hospital : Hospital
  drone_to_source : ℚ
  source_to_dest : ℚ
  total_distance : ℚ
  priority_score : ℚ
  deriving DecidableEq

/-- Drone-to-source leg (app.py lines 160-168): 0 when the drone location is
unknown. -/
def drone_to_source_distance (dist : Point → Point → ℚ)
    (loc : Option Point) (src : Hospital) : ℚ :=
  match loc with
  | some p => dist p (hospital_point src)
  | none => 0

/-- Candidate construction for one (request, source hospital) pair
(app.py lines 158-208). -/
def mk_candidate (dist : Point → Point → ℚ) (findH : Nat → Hospital)
    (loc : Option Point) (now : ℚ) (r : BloodRequest) (src : Hospital) :
    MissionCandidate :=
  let requesting := findH r.hospital_id
  let d2s := drone_to_source_distance dist loc src
  let s2d := dist (hospital_point src) (hospital_point requesting)
  let total := d2s + s2d
  { request := r
    source_hospital := src
    destination_hospital := requesting
    drone_to_source := d2s
    source_to_dest := s2d
    total_distance := total
    priority_score := priority_score_of now r total }

/-- Candidates contributed by a single request (app.py lines 144-208): the
inventory rows (already filtered to positive units) whose blood type matches
and whose units suffice, each mapped through the hospital lookup. -/
def candidates_for (dist : Point → Point → ℚ) (findH : Nat → Hospital)
    (loc : Option Point) (now : ℚ) (avail : List BloodInventory)
    (r : BloodRequest) : List MissionCandidate :=
  (avail.filter
      (fun inv => decide (inv.blood_type = r.blood_type ∧ r.units ≤ inv.units))).map
    (fun inv => mk_candidate dist findH loc now r (findH inv.hospital_id))

/-- The full `mission_candidates` list, in request order. -/
def all_candidates (dist : Point → Point → ℚ) (findH : Nat → Hospital)
    (loc : Option Point) (now : ℚ) (avail : List BloodInventory) :
    List BloodRequest → List MissionCandidate
  | [] => []
  | r :: rest =>
    candidates_for dist findH loc now avail r ++
      all_candidates dist findH loc now avail rest

/-- Python `min(candidates, key=priority_score)`: scan keeping the first
element of strictly smallest key. -/
def pick_best (best : MissionCandidate) :
    List MissionCandidate → MissionCandidate
  | [] => best
  | c :: rest =>
    pick_best (if c.priority_score < best.priority_score then c else best) rest

/-- `select_best_mission` (app.py lines 114-237): bail out when the drone is
unavailable, when there is no pending request, when no inventory row has
positive units, or when no candidate exists; otherwise return the candidate of
minimal priority score. -/
def select_best_mission (dist : Point → Point → ℚ) (findH : Nat → Hospital)
    (status : DroneStatus) (now : ℚ) (pending : List BloodRequest)
    (inventory : List BloodInventory) : Option MissionCandidate :=
  if status.is_available = false then none
  else if pending.isEmpty then none
  else
    let avail := inventory.filter (fun inv => decide (0 < inv.units))
    if avail.isEmpty then none
    else
      match all_candidates dist findH status.current_location now avail pending with
      | [] => none
      | c :: rest => some (pick_best c rest)

/-! ### MissionDispatcher (app.py `auto_start_mission`, lines 663-706) -/

/-- The MAVLink commands `auto_start_mission` can issue through
`DroneController`. -/
inductive HardwareCommand where
  | arm_and_takeoff (target_altitude : ℚ)
  | goto_location (lat lon alt : ℚ)
  | return_to_launch
  deriving DecidableEq

/-- Observable outcome of one `auto_start_mission` call: the status written to
the selected request (if any) and the hardware commands issued, in order. -/
structure AutoStartResult where
  request_status : Option String
  commands : List HardwareCommand
  deriving DecidableEq

/-- The `mission_params` dict built in `auto_start_mission`
(app.py lines 679-686): wind 0, visibility 10000, altitude 20, endpoints the
source and destination hospital coordinates. -/
def mission_params_for (status : DroneStatus) (m : MissionCandidate) :
    MissionParams :=
  { battery_level := (status.battery_level : ℚ)
    wind_speed := 0
    visibility := 10000
    start_location := hospital_point m.source_hospital
    destination := hospital_point m.destination_hospital
    planned_altitude := 20 }

/-- The part of `auto_start_mission` after the source-equals-destination name
check (app.py lines 675-706): safety gate, then the dispatch sequence for a
pending request. -/
def dispatch_checked (dist : Point → Point → ℚ) (zones : List NoFlyZone)
    (status : DroneStatus) (m : MissionCandidate) : AutoStartResult :=
  if is_mission_safe dist zones (mission_params_for status m) = true then
    if m.request.status = "pending" then
      { request_status := some "scheduled"
        commands :=
          [HardwareCommand.arm_and_takeoff 20,
           HardwareCommand.goto_location m.source_hospital.latitude
             m.source_hospital.longitude 20,
           HardwareCommand.goto_location m.destination_hospital.latitude
             m.destination_hospital.longitude 20,
           HardwareCommand.return_to_launch] }
    else { request_status := none, commands := [] }
  else { request_status := some "error", commands := [] }

/-- `auto_start_mission` (app.py lines 663-706). -/
def auto_start_mission (dist : Point → Point → ℚ) (zones : List NoFlyZone)
    (findH : Nat → Hospital) (status : DroneStatus) (now : ℚ)
    (pending : List BloodRequest) (inventory : List BloodInventory) :
    AutoStartResult :=
  match select_best_mission dist findH status now pending inventory with
  | none => { request_status := none, commands := [] }
  | some m =>
    if m.source_hospital.name = m.destination_hospital.name then
      { request_status := some "error", commands := [] }
    else dispatch_checked dist zones status m

/-! ### Concrete scenario values (used by witnesses and counterexamples) -/

def zeroDist : Point → Point → ℚ := fun _ _ => 0

def dist11 : Point → Point → ℚ := fun _ _ => 11

def dist5 : Point → Point → ℚ := fun _ _ => 5

def dist2000 : Point → Point → ℚ := fun _ _ => 2000

def hospA : Hospital := { id := 1, name := "Central", latitude := 0, longitude := 0 }

def hosp_dup : Hospital := { id := 3, name := "Central", latitude := 5, longitude := 5 }

def hosp_same_coords : Hospital :=
  { id := 4, name := "North", latitude := 0, longitude := 0 }

def findH_dup : Nat → Hospital := fun i => if i = 1 then hospA else hosp_dup

def findH_nc : Nat → Hospital := fun i => if i = 1 then hospA else hosp_same_coords

def reqSelf : BloodRequest :=
  { id := 1, hospital_id := 1, blood_type := "O+", units := 2,
    urgency := "critical", status := "pending", created_at := 0 }

def reqAB : BloodRequest :=
  { id := 2, hospital_id := 1, blood_type := "O+", units := 2,
    urgency := "critical", status := "pending", created_at := 0 }

def req_dup : BloodRequest :=
  { id := 9, hospital_id := 3, blood_type := "O+", units := 2,
    urgency := "critical", status := "pending", created_at := 0 }

def req_nc : BloodRequest :=
  { id := 11, hospital_id := 4, blood_type := "O+", units := 2,
    urgency := "critical", status := "pending", created_at := 0 }

def req_zero : BloodRequest :=
  { id := 10, hospital_id := 1, blood_type := "O+", units := 0,
    urgency := "critical", status := "pending", created_at := 0 }

def req_old : BloodRequest :=
  { id := 7, hospital_id := 2, blood_type := "A+", units := 1,
    urgency := "normal", status := "pending", created_at := 0 }

def req_new : BloodRequest :=
  { id := 7, hospital_id := 2, blood_type := "A+", units := 1,
    urgency := "normal", status := "pending", created_at := 3600 }

def invA : BloodInventory := { hospital_id := 1, blood_type := "O+", units := 12 }

def inv_zero : BloodInventory := { hospital_id := 1, blood_type := "O+", units := 0 }

def statusAvail : DroneStatus :=
  { is_charging := false, battery_level := 80, is_available := true,
    current_location := none }

def far_params : MissionParams :=
  { battery_level := 80, wind_speed := 0, visibility := 10000,
    start_location := { lat := 0, lon := 0 },
    destination := { lat := 1, lon := 1 }, planned_altitude := 50 }

def zone_in : NoFlyZone := { name := "Z", lat := 0, lon := 0, radius := 7 }

def zone_out : NoFlyZone := { name := "Z2", lat := 0, lon := 0, radius := 3 }

def speed_state : ControllerState :=
  { last_location := some { lat := 0, lon := 0 }
    last_location_time := some 0
    current_speed := 50 }

/-- The feasibility predicate actually enforced by `select_best_mission`:
the inventory row must have positive units (the query filter at app.py
lines 134-136) in addition to the type match and sufficiency (line 150). -/
def feasible_pos (r : BloodRequest) (inv : BloodInventory) : Prop :=
  0 < inv.units ∧ inv.blood_type = r.blood_type ∧ r.units ≤ inv.units

instance (r : BloodRequest) (inv : BloodInventory) : Decidable (feasible_pos r inv) :=
  inferInstanceAs (Decidable (_ ∧ _ ∧ _))

/-- Python `min` on a guarded-nonempty list, as used at app.py line 214. -/
def best_of : List MissionCandidate → Option MissionCandidate
  | [] => none
  | c :: rest => some (pick_best c rest)

/-! ### Helper lemmas -/

theorem pick_best_mem : ∀ (l : List MissionCandidate) (b : MissionCandidate),
    pick_best b l = b ∨ pick_best b l ∈ l
  | [], _ => Or.inl rfl
  | c :: rest, b => by
    simp only [pick_best]
    rcases pick_best_mem rest (if c.priority_score < b.priority_score then c else b)
      with h | h
    · rw [h]
      split
      · exact Or.inr (List.mem_cons_self c rest)
      · exact Or.inl rfl
    · exact Or.inr (List.mem_cons_of_mem _ h)

theorem pick_best_le : ∀ (l : List MissionCandidate) (b : MissionCandidate),
    (pick_best b l).priority_score ≤ b.priority_score ∧
      ∀ c ∈ l, (pick_best b l).priority_score ≤ c.priority_score
  | [], b => ⟨le_refl _, by simp⟩
  | c :: rest, b => by
    simp only [pick_best]
    obtain ⟨h1, h2⟩ :=
      pick_best_le rest (if c.priority_score < b.priority_score then c else b)
    constructor
    · refine le_trans h1 ?_
      split
      · next h => exact le_of_lt h
      · exact le_refl _
    · intro d hd
      rcases List.mem_cons.mp hd with rfl | hd
      · refine le_trans h1 ?_
        split
        · exact le_refl _
        · next h => exact le_of_not_lt h
      · exact h2 d hd

theorem best_of_eq_none {l : List MissionCandidate} :
    best_of l = none ↔ l = [] := by
  cases l <;> simp [best_of]

theorem best_of_mem {l : List MissionCandidate} {c : MissionCandidate}
    (h : best_of l = some c) : c ∈ l := by
  cases l with
  | nil => cases h
  | cons b rest =>
    simp only [best_of, Option.some.injEq] at h
    rcases pick_best_mem rest b with h2 | h2
    · rw [← h, h2]; exact List.mem_cons_self b rest
    · rw [← h]; exact List.mem_cons_of_mem _ h2

theorem best_of_min {l : List MissionCandidate} {c : MissionCandidate}
    (h : best_of l = some c) :
    ∀ d ∈ l, c.priority_score ≤ d.priority_score := by
  cases l with
  | nil => cases h
  | cons b rest =>
    simp only [best_of, Option.some.injEq] at h
    intro d hd
    obtain ⟨h1, h2⟩ := pick_best_le rest b
    rcases List.mem_cons.mp hd with rfl | hd
    · rw [← h]; exact h1
    · rw [← h]; exact h2 d hd

theorem mem_candidates_for {dist : Point → Point → ℚ} {findH : Nat → Hospital}
    {loc : Option Point} {now : ℚ} {avail : List BloodInventory}
    {r : BloodRequest} {c : MissionCandidate} :
    c ∈ candidates_for dist findH loc now avail r ↔
      ∃ inv ∈ avail, (inv.blood_type = r.blood_type ∧ r.units ≤ inv.units) ∧
        c = mk_candidate dist findH loc now r (findH inv.hospital_id) := by
  simp only [candidates_for, List.mem_map, List.mem_filter, decide_eq_true_eq]
  constructor
  · rintro ⟨inv, ⟨hmem, hcond⟩, rfl⟩
    exact ⟨inv, hmem, hcond, rfl⟩
  · rintro ⟨inv, hmem, hcond, rfl⟩
    exact ⟨inv, ⟨hmem, hcond⟩, rfl⟩

theorem mem_all_candidates (dist : Point → Point → ℚ) (findH : Nat → Hospital)
    (loc : Option Point) (now : ℚ) (avail : List BloodInventory)
    (pending : List BloodRequest) (c : MissionCandidate) :
    c ∈ all_candidates dist findH loc now avail pending ↔
      ∃ r ∈ pending, ∃ inv ∈ avail,
        (inv.blood_type = r.blood_type ∧ r.units ≤ inv.units) ∧
        c = mk_candidate dist findH loc now r (findH inv.hospital_id) := by
  induction pending with
  | nil => simp [all_candidates]
  | cons r rest ih =>
    simp only [all_candidates, List.mem_append, ih, mem_candidates_for]
    constructor
    · rintro (⟨inv, hi, hc, he⟩ | ⟨r2, hr2, hrest⟩)
      · exact ⟨r, List.mem_cons_self r rest, inv, hi, hc, he⟩
      · exact ⟨r2, List.mem_cons_of_mem _ hr2, hrest⟩
    · rintro ⟨r2, hr2, hrest⟩
      rcases List.mem_cons.mp hr2 with rfl | hr2
      · exact Or.inl hrest
      · exact Or.inr ⟨r2, hr2, hrest⟩

theorem all_candidates_nil_avail (dist : Point → Point → ℚ)
    (findH : Nat → Hospital) (loc : Option Point) (now : ℚ) :
    ∀ pending, all_candidates dist findH loc now [] pending = []
  | [] => rfl
  | r :: rest => by
    simp [all_candidates, candidates_for,
      all_candidates_nil_avail dist findH loc now rest]

theorem select_none_of_unavailable (dist : Point → Point → ℚ)
    (findH : Nat → Hospital) (status : DroneStatus) (now : ℚ)
    (pending : List BloodRequest) (inventory : List BloodInventory)
    (h : status.is_available = false) :
    select_best_mission dist findH status now pending inventory = none := by
  simp [select_best_mission, h]

theorem select_best_mission_eq_best_of (dist : Point → Point → ℚ)
    (findH : Nat → Hospital) (status : DroneStatus) (now : ℚ)
    (pending : List BloodRequest) (inventory : List BloodInventory)
    (hav : status.is_available = true) :
    select_best_mission dist findH status now pending inventory =
      best_of (all_candidates dist findH status.current_location now
        (inventory.filter (fun inv => decide (0 < inv.units))) pending) := by
  cases pending with
  | nil => simp [select_best_mission, hav, all_candidates, best_of]
  | cons r rest =>
    by_cases hA : (inventory.filter (fun inv => decide (0 < inv.units))) = []
    · rw [hA, all_candidates_nil_avail]
      simp [select_best_mission, hav, hA, best_of]
    · have hA2 : (inventory.filter (fun inv => decide (0 < inv.units))).isEmpty = false := by
        cases hfe : (inventory.filter (fun inv => decide (0 < inv.units))) with
        | nil => exact absurd hfe hA
        | cons a l => simp [List.isEmpty]
      simp only [select_best_mission, hav, hA2]
      cases hc : all_candidates dist findH status.current_location now
          (inventory.filter (fun inv => decide (0 < inv.units))) (r :: rest) with
      | nil => simp [best_of]
      | cons c cs => simp [best_of]

theorem calculate_speed_eq (dist_m : Point → Point → ℚ) (st : ControllerState)
    (cur last : Point) (last_time t : ℚ)
    (hl : st.last_location = some last)
    (ht : st.last_location_time = some last_time) :
    calculate_speed_from_position dist_m st (some cur) t =
      if t - last_time < 1/10 then (st.current_speed, st)
      else
        (if (100 : ℚ) < dist_m last cur / (t - last_time) then 0
          else dist_m last cur / (t - last_time),
         { last_location := some cur
           last_location_time := some t
           current_speed :=
             if (100 : ℚ) < dist_m last cur / (t - last_time) then 0
             else dist_m last cur / (t - last_time) }) := by
  obtain ⟨ll, llt, cs⟩ := st
  dsimp only at hl ht
  subst hl
  subst ht
  rfl

theorem check_no_fly_zones_iff (dist : Point → Point → ℚ)
    (zones : List NoFlyZone) (start dest : Point) :
    check_no_fly_zones dist zones start dest = true ↔
      ∀ z ∈ zones, z.radius ≤ dist start (zone_center z) ∧
        z.radius ≤ dist dest (zone_center z) := by
  induction zones with
  | nil => simp [check_no_fly_zones]
  | cons z rest ih =>
    simp only [check_no_fly_zones]
    split_ifs with h1 h2
    · constructor
      · intro h; exact h.elim
      · intro h
        exact absurd ((h z (List.mem_cons_self z rest)).1) (not_le.mpr h1)
    · constructor
      · intro h; exact h.elim
      · intro h
        exact absurd ((h z (List.mem_cons_self z rest)).2) (not_le.mpr h2)
    · rw [ih]
      constructor
      · intro h z2 hz2
        rcases List.mem_cons.mp hz2 with rfl | hz2
        · exact ⟨not_lt.mp h1, not_lt.mp h2⟩
        · exact h z2 hz2
      · intro h z2 hz2
        exact h z2 (List.mem_cons_of_mem z hz2)

/-! ### Claims -/

/-- C1: In the dispatch path (`auto_start_mission`), if the selected mission's
source hospital equals its destination hospital (same name), or the SafetyGate
(`is_mission_safe`) returns false for the mission parameters, then the
request's status is set to "error" and no hardware command is issued. -/
theorem auto_start_no_command_on_invalid_or_unsafe
    (dist : Point → Point → ℚ) (zones : List NoFlyZone) (findH : Nat → Hospital)
    (status : DroneStatus) (now : ℚ) (pending : List BloodRequest)
    (inventory : List BloodInventory) (m : MissionCandidate)
    (hm : select_best_mission dist findH status now pending inventory = some m)
    (hbad : m.source_hospital.name = m.destination_hospital.name ∨
      is_mission_safe dist zones (mission_params_for status m) = false) :
    auto_start_mission dist zones findH status now pending inventory =
      { request_status := some "error", commands := [] } := by
  unfold auto_start_mission
  rw [hm]
  by_cases hname : m.source_hospital.name = m.destination_hospital.name
  · simp [hname]
  · rcases hbad with h | h
    · exact absurd h hname
    · simp [hname, dispatch_checked, h]

theorem auto_start_no_command_on_invalid_or_unsafe_witness :
    auto_start_mission zeroDist [] (fun _ => hospA) statusAvail 0 [reqSelf] [invA] =
      { request_status := some "error", commands := [] } :=
  auto_start_no_command_on_invalid_or_unsafe zeroDist [] (fun _ => hospA)
    statusAvail 0 [reqSelf] [invA]
    (mk_candidate zeroDist (fun _ => hospA) none 0 reqSelf hospA)
    rfl (Or.inl rfl)

/-- C2: whenever the distance from start to destination exceeds the configured
maximum mission distance (10 km), `is_mission_safe` returns false, regardless
of battery, wind, visibility and altitude. -/
theorem is_mission_safe_false_of_distance (dist : Point → Point → ℚ)
    (zones : List NoFlyZone) (p : MissionParams)
    (h : max_distance < dist p.start_location p.destination) :
    is_mission_safe dist zones p = false := by
  simp [is_mission_safe, h]

theorem is_mission_safe_false_of_distance_witness :
    is_mission_safe dist11 [] far_params = false :=
  is_mission_safe_false_of_distance dist11 [] far_params (by decide)

/-- C3: `check_no_fly_zones` accepts exactly when every configured zone has
both endpoints at distance at least its radius from its center (endpoint-only
check); and if some endpoint is strictly within some zone's radius,
`is_mission_safe` returns false. -/
theorem no_fly_zone_endpoint_rejection (dist : Point → Point → ℚ) :
    (∀ zones start dest,
      check_no_fly_zones dist zones start dest = true ↔
        ∀ z ∈ zones, z.radius ≤ dist start (zone_center z) ∧
          z.radius ≤ dist dest (zone_center z)) ∧
    ∀ zones p,
      (∃ z ∈ zones,
        dist p.start_location (zone_center z) < z.radius ∨
        dist p.destination (zone_center z) < z.radius) →
      is_mission_safe dist zones p = false := by
  refine ⟨fun zones start dest => check_no_fly_zones_iff dist zones start dest, ?_⟩
  intro zones p hex
  obtain ⟨z, hz, hlt⟩ := hex
  have hfalse : check_no_fly_zones dist zones p.start_location p.destination = false := by
    rcases Bool.eq_false_or_eq_true
        (check_no_fly_zones dist zones p.start_location p.destination) with h | h
    · obtain ⟨hz1, hz2⟩ := (check_no_fly_zones_iff dist zones _ _).mp h z hz
      rcases hlt with hlt | hlt
      · exact absurd hz1 (not_le.mpr hlt)
      · exact absurd hz2 (not_le.mpr hlt)
    · exact h
  by_cases hd : max_distance < dist p.start_location p.destination
  · simp [is_mission_safe, hd]
  · simp [is_mission_safe, hd, hfalse]

theorem no_fly_zone_endpoint_rejection_witness :
    is_mission_safe dist5 [zone_in] far_params = false ∧
    check_no_fly_zones dist5 [zone_out]
      { lat := 0, lon := 0 } { lat := 1, lon := 1 } = true :=
  ⟨(no_fly_zone_endpoint_rejection dist5).2 [zone_in] far_params
      ⟨zone_in, by decide, Or.inl (by decide)⟩,
   ((no_fly_zone_endpoint_rejection dist5).1 [zone_out]
      { lat := 0, lon := 0 } { lat := 1, lon := 1 }).mpr (by decide)⟩

/-- C5: whenever the drone's battery is below the availability floor (20%) or
the drone is deemed charging (battery above 90%), `select_best_mission`
returns none, whatever the pending requests and inventory are. -/
theorem select_best_mission_none_when_unavailable (dist : Point → Point → ℚ)
    (findH : Nat → Hospital) (prev : DroneStatus) (conn : Bool) (battery : Int)
    (loc : Option Point) (now : ℚ) (pending : List BloodRequest)
    (inventory : List BloodInventory)
    (h : battery < 20 ∨ 90 < battery) :
    select_best_mission dist findH (get_drone_status prev conn battery loc)
      now pending inventory = none := by
  apply select_none_of_unavailable
  cases conn with
  | false => simp [get_drone_status]
  | true =>
    rcases h with h | h
    · have h2 : ¬ (20 : Int) < battery := by omega
      simp [get_drone_status, h2]
    · simp [get_drone_status, h]

theorem select_best_mission_none_when_unavailable_witness :
    select_best_mission zeroDist (fun _ => hospA)
      (get_drone_status statusAvail true 15 none) 0 [reqAB] [invA] = none :=
  select_best_mission_none_when_unavailable zeroDist (fun _ => hospA)
    statusAvail true 15 none 0 [reqAB] [invA] (Or.inl (by decide))

/-- C6: the claim says an older otherwise-identical request never gets a
greater (worse) score.  The code does the opposite: `req_old` and `req_new`
agree on every field except `created_at` (`req_old` is one hour older), yet at
`now = 7200` the code's `priority_score` for the newer request is strictly
smaller, i.e. the older request scores strictly worse under the
lower-is-better selection of app.py line 214 — contradicting the inline
comment "older requests get higher priority". -/
theorem priority_score_penalizes_waiting :
    req_old.created_at < req_new.created_at ∧
    req_old.urgency = req_new.urgency ∧
    req_old.blood_type = req_new.blood_type ∧
    req_old.units = req_new.units ∧
    req_old.hospital_id = req_new.hospital_id ∧
    priority_score_of 7200 req_new 2 < priority_score_of 7200 req_old 2 := by
  refine ⟨by decide, rfl, rfl, rfl, rfl, ?_⟩
  show urgency_score req_new.urgency + time_score 7200 req_new.created_at + 2 * 2 <
    urgency_score req_old.urgency + time_score 7200 req_old.created_at + 2 * 2
  norm_num [urgency_score, time_score, req_old, req_new]

/-- C7 counterexample: the claim says a derived speed above 100 m/s is
replaced by the previously known speed.  With previous speed 50 m/s and a
derived speed of 200 m/s (2000 m in 10 s), the code returns 0, not 50. -/
theorem calculate_speed_spike_cex :
    (100 : ℚ) < dist2000 { lat := 0, lon := 0 } { lat := 1, lon := 1 } / (10 - 0) ∧
    speed_state.current_speed = 50 ∧
    (calculate_speed_from_position dist2000 speed_state
      (some { lat := 1, lon := 1 }) 10).1 = 0 ∧
    (calculate_speed_from_position dist2000 speed_state
        (some { lat := 1, lon := 1 }) 10).1 ≠ speed_state.current_speed := by
  have h : calculate_speed_from_position dist2000 speed_state
      (some { lat := 1, lon := 1 }) 10 =
      (0, { last_location := some { lat := 1, lon := 1 },
            last_location_time := some 10, current_speed := 0 }) := by
    rw [calculate_speed_eq dist2000 speed_state { lat := 1, lon := 1 }
      { lat := 0, lon := 0 } 0 10 rfl rfl]
    norm_num [dist2000]
  refine ⟨by norm_num [dist2000], rfl, ?_, ?_⟩
  · rw [h]
  · rw [h]
    norm_num [speed_state]

/-- C7 (amended): in `calculate_speed_from_position`, whenever the derived
speed (distance between the last and current fixes over elapsed time) exceeds
100 m/s, the derived value is rejected and 0.0 is returned and recorded as the
current speed (not the previously known speed). -/
theorem calculate_speed_rejects_spike (dist_m : Point → Point → ℚ)
    (st : ControllerState) (cur last : Point) (last_time t : ℚ)
    (hl : st.last_location = some last)
    (ht : st.last_location_time = some last_time)
    (htd : ¬ (t - last_time < 1/10))
    (hs : (100 : ℚ) < dist_m last cur / (t - last_time)) :
    (calculate_speed_from_position dist_m st (some cur) t).1 = 0 ∧
    (calculate_speed_from_position dist_m st (some cur) t).2.current_speed = 0 := by
  rw [calculate_speed_eq dist_m st cur last last_time t hl ht, if_neg htd, if_pos hs]
  exact ⟨rfl, rfl⟩

theorem calculate_speed_rejects_spike_witness :
    (calculate_speed_from_position dist2000 speed_state
      (some { lat := 1, lon := 1 }) 10).1 = 0 ∧
    (calculate_speed_from_position dist2000 speed_state
      (some { lat := 1, lon := 1 }) 10).2.current_speed = 0 :=
  calculate_speed_rejects_spike dist2000 speed_state
    { lat := 1, lon := 1 } { lat := 0, lon := 0 } 0 10
    rfl rfl (by norm_num) (by norm_num [dist2000])

/-- C8 counterexample: the claim says a disconnected `get_battery_level`
returns the optimistic default 100; the code returns 0 when the connected
flag is false (the 100 default applies only when connected with no battery
telemetry). -/
theorem get_battery_level_disconnected_cex :
    get_battery_level false { battery_remaining := none, voltages_mv := none } = 0 ∧
    get_battery_level false { battery_remaining := none, voltages_mv := none } ≠ 100 := by
  exact ⟨rfl, by decide⟩

/-- C8 (amended): whenever the connected flag is false, `get_battery_level`
returns 0 without consulting the vehicle link — the result is the same for
every telemetry value; when connected with no battery telemetry at all, it
returns the optimistic default 100. -/
theorem get_battery_level_disconnected (t : BatteryTelemetry) :
    get_battery_level false t = 0 ∧
    (∀ t2 : BatteryTelemetry, get_battery_level false t = get_battery_level false t2) ∧
    get_battery_level true { battery_remaining := none, voltages_mv := none } = 100 :=
  ⟨rfl, fun _ => rfl, rfl⟩

/-- C9: the battery-from-voltage derivation is linear interpolation between
10.5 V (empty) and 12.6 V (full): 12.6 V yields 100, 10.5 V yields 0,
11.55 V yields 50; voltages above 12.6 or below 10.5 clamp to 100 or 0, and
the result is always within [0, 100]. -/
theorem battery_from_voltage_linear :
    battery_from_voltage 12.6 = 100 ∧
    battery_from_voltage 10.5 = 0 ∧
    battery_from_voltage 11.55 = 50 ∧
    (∀ v : ℚ, (12.6 : ℚ) < v → battery_from_voltage v = 100) ∧
    (∀ v : ℚ, v < (10.5 : ℚ) → battery_from_voltage v = 0) ∧
    ∀ v : ℚ, 0 ≤ battery_from_voltage v ∧ battery_from_voltage v ≤ 100 := by
  refine ⟨?_, ?_, ?_, ?_, ?_, ?_⟩
  · unfold battery_from_voltage
    rw [if_neg (by norm_num), if_neg (by norm_num), Int.floor_eq_iff]
    constructor <;> norm_num
  · unfold battery_from_voltage
    rw [if_neg (by norm_num), if_neg (by norm_num), Int.floor_eq_iff]
    constructor <;> norm_num
  · unfold battery_from_voltage
    rw [if_neg (by norm_num), if_neg (by norm_num), Int.floor_eq_iff]
    constructor <;> norm_num
  · intro v hv
    simp [battery_from_voltage, hv]
  · intro v hv
    have h1 : ¬ (12.6 : ℚ) < v := by linarith
    simp [battery_from_voltage, h1, hv]
  · intro v
    unfold battery_from_voltage
    split_ifs with h1 h2
    · exact ⟨by norm_num, le_refl _⟩
    · exact ⟨le_refl _, by norm_num⟩
    · push_neg at h1 h2
      constructor
      · refine Int.floor_nonneg.mpr ?_
        apply mul_nonneg
        · apply div_nonneg <;> linarith
        · norm_num
      · have h101 : Int.floor ((v - 10.5) / ((12.6 : ℚ) - 10.5) * 100) < 101 := by
          rw [Int.floor_lt]
          push_cast
          rw [div_mul_eq_mul_div, div_lt_iff₀ (by norm_num : (0 : ℚ) < (12.6 : ℚ) - 10.5)]
          linarith
        omega

theorem battery_from_voltage_linear_witness :
    battery_from_voltage 13 = 100 ∧ battery_from_voltage 10 = 0 ∧
    0 ≤ battery_from_voltage 11 ∧ battery_from_voltage 11 ≤ 100 :=
  ⟨battery_from_voltage_linear.2.2.2.1 13 (by norm_num),
   battery_from_voltage_linear.2.2.2.2.1 10 (by norm_num),
   (battery_from_voltage_linear.2.2.2.2.2 11).1,
   (battery_from_voltage_linear.2.2.2.2.2 11).2⟩

/-- C10: the pre-dispatch source-equals-destination rejection is decided
solely by comparing the two hospitals' name strings: equal names (even on
distinct records) yield status "error" with no command; different names are
never rejected by this check (the call proceeds to `dispatch_checked`, which
contains no name comparison), even if ids or coordinates coincide. -/
theorem source_dest_check_is_name_based (dist : Point → Point → ℚ)
    (zones : List NoFlyZone) (findH : Nat → Hospital) (status : DroneStatus)
    (now : ℚ) (pending : List BloodRequest) (inventory : List BloodInventory)
    (m : MissionCandidate)
    (hm : select_best_mission dist findH status now pending inventory = some m) :
    (m.source_hospital.name = m.destination_hospital.name →
      auto_start_mission dist zones findH status now pending inventory =
        { request_status := some "error", commands := [] }) ∧
    (m.source_hospital.name ≠ m.destination_hospital.name →
      auto_start_mission dist zones findH status now pending inventory =
        dispatch_checked dist zones status m) := by
  unfold auto_start_mission
  rw [hm]
  constructor
  · intro h; simp [h]
  · intro h; simp [h]

theorem source_dest_check_is_name_based_witness :
    auto_start_mission zeroDist [] findH_dup statusAvail 0 [req_dup] [invA] =
      { request_status := some "error", commands := [] } ∧
    auto_start_mission zeroDist [] findH_nc statusAvail 0 [req_nc] [invA] =
      dispatch_checked zeroDist [] statusAvail
        (mk_candidate zeroDist findH_nc none 0 req_nc hospA) :=
  ⟨(source_dest_check_is_name_based zeroDist [] findH_dup statusAvail 0
      [req_dup] [invA]
      (mk_candidate zeroDist findH_dup none 0 req_dup hospA) rfl).1 rfl,
   (source_dest_check_is_name_based zeroDist [] findH_nc statusAvail 0
      [req_nc] [invA]
      (mk_candidate zeroDist findH_nc none 0 req_nc hospA) rfl).2 (by decide)⟩

/-- C4 counterexample: the claim's feasibility is only "blood type matches and
unit count at least the requested units".  With a pending request for 0 units
and a matching inventory row holding 0 units, that pair is feasible in the
claim's sense (0 ≤ 0) and the drone is available, yet `select_best_mission`
returns none, because the code additionally filters inventory to rows with
positive units (app.py lines 134-136). -/
theorem select_best_mission_zero_units_cex :
    statusAvail.is_available = true ∧
    inv_zero.blood_type = req_zero.blood_type ∧
    req_zero.units ≤ inv_zero.units ∧
    select_best_mission zeroDist (fun _ => hospA) statusAvail 0
      [req_zero] [inv_zero] = none := by
  refine ⟨rfl, rfl, by decide, ?_⟩
  rfl

/-- C4 (amended): when the drone is available, `select_best_mission` returns
the feasible (request, source-hospital) pair — blood type matches, the source
inventory row's unit count is positive and at least the requested units —
whose priority score is globally minimal over all feasible pairs, or none if
no pair is feasible. -/
theorem select_best_mission_minimal (dist : Point → Point → ℚ)
    (findH : Nat → Hospital) (status : DroneStatus) (now : ℚ)
    (pending : List BloodRequest) (inventory : List BloodInventory)
    (hav : status.is_available = true) :
    (select_best_mission dist findH status now pending inventory = none →
      ∀ r ∈ pending, ∀ inv ∈ inventory, ¬ feasible_pos r inv) ∧
    ∀ m, select_best_mission dist findH status now pending inventory = some m →
      (∃ r ∈ pending, ∃ inv ∈ inventory, feasible_pos r inv ∧
        m = mk_candidate dist findH status.current_location now r
          (findH inv.hospital_id)) ∧
      ∀ r ∈ pending, ∀ inv ∈ inventory, feasible_pos r inv →
        m.priority_score ≤
          (mk_candidate dist findH status.current_location now r
            (findH inv.hospital_id)).priority_score := by
  rw [select_best_mission_eq_best_of dist findH status now pending inventory hav]
  constructor
  · intro hnone r hr inv hinv hfeas
    obtain ⟨hpos, htype, hunits⟩ := hfeas
    have hmem : mk_candidate dist findH status.current_location now r
        (findH inv.hospital_id) ∈ all_candidates dist findH
          status.current_location now
          (inventory.filter (fun inv => decide (0 < inv.units))) pending :=
      (mem_all_candidates dist findH status.current_location now _ pending _).mpr
        ⟨r, hr, inv,
          List.mem_filter.mpr ⟨hinv, decide_eq_true hpos⟩, ⟨htype, hunits⟩, rfl⟩
    rw [best_of_eq_none.mp hnone] at hmem
    cases hmem
  · intro m hm
    constructor
    · obtain ⟨r, hr, inv, hia, hcond, he⟩ :=
        (mem_all_candidates dist findH status.current_location now _ pending m).mp
          (best_of_mem hm)
      obtain ⟨hinv, hpos⟩ := List.mem_filter.mp hia
      exact ⟨r, hr, inv, hinv, ⟨of_decide_eq_true hpos, hcond.1, hcond.2⟩, he⟩
    · intro r hr inv hinv hfeas
      obtain ⟨hpos, htype, hunits⟩ := hfeas
      refine best_of_min hm _ ?_
      exact (mem_all_candidates dist findH status.current_location now _ pending _).mpr
        ⟨r, hr, inv,
          List.mem_filter.mpr ⟨hinv, decide_eq_true hpos⟩, ⟨htype, hunits⟩, rfl⟩

theorem select_best_mission_minimal_witness :
    (select_best_mission zeroDist (fun _ => hospA) statusAvail 0 [reqAB] [invA] = none →
      ∀ r ∈ [reqAB], ∀ inv ∈ [invA], ¬ feasible_pos r inv) ∧
    ∀ m, select_best_mission zeroDist (fun _ => hospA) statusAvail 0 [reqAB] [invA] = some m →
      (∃ r ∈ [reqAB], ∃ inv ∈ [invA], feasible_pos r inv ∧
        m = mk_candidate zeroDist (fun _ => hospA) statusAvail.current_location 0 r
          ((fun _ => hospA) inv.hospital_id)) ∧
      ∀ r ∈ [reqAB], ∀ inv ∈ [invA], feasible_pos r inv →
        m.priority_score ≤
          (mk_candidate zeroDist (fun _ => hospA) statusAvail.current_location 0 r
            ((fun _ => hospA) inv.hospital_id)).priority_score :=
  select_best_mission_minimal zeroDist (fun _ => hospA) statusAvail 0 [reqAB] [invA] rfl

end Drone
